import Mathlib

/-!
Verification development for the ecommerce platform pricing and order models.

Embedded sources:
* src/models/Cart.ts (CartSchema methods and pre-save hook)
* src/models/CartItem.ts (price recomputation run by the CartItem save hook)
* src/models/TaxRate.ts (TaxRateSchema.statics.calculateTax)
* src/models/Order.ts (OrderSchema methods, virtuals and pre-save hook)
* src/models/ShippingMethod.ts (calculateRate and its tier helpers)

Modelling conventions: JavaScript numbers are modelled as exact rationals;
database object ids are modelled as Nat; Date stamping and persistence side
effects that touch no field the claims mention (timestamps, order numbers)
are omitted. JavaScript truthiness of optional numeric fields (undefined and
0 both falsy) is modelled by the helper truthyNum. Fallible methods that
throw become Except values; a throw happens before any field assignment in
every embedded method, so the error case carries no mutated state, exactly
as in the source.
-/

namespace Ecom

/-- JavaScript truthiness of an optional numeric value: `undefined` and `0`
are both falsy, every other number is truthy. -/
def truthyNum : Option ℚ → Option ℚ
  | none => none
  | some v => if v = 0 then none else some v

/-- JavaScript Math.round: round half toward positive infinity. -/
def jsRound (x : ℚ) : ℚ := ((⌊x + 1 / 2⌋ : ℤ) : ℚ)

/-- Discount type enum shared by coupons and applied-coupon records
(CartSchema AppliedCouponSchema). -/
inductive DiscountType where
  | percentage
  | fixed
deriving DecidableEq

/-- A cart line item (src/models/CartItem.ts). `extras` is the sum of the
customization prices plus the gift-wrap price, the two add-ons that
CartItem.calculatePrices folds into totalPrice. -/
structure CartItem where
  id : Nat
  product : Nat
  variant : Option Nat
  quantity : ℚ
  extras : ℚ
  totalPrice : ℚ
deriving DecidableEq

/-- An applied-coupon record stored on the cart (AppliedCouponSchema). -/
structure AppliedCoupon where
  couponId : Nat
  code : String
  discountAmount : ℚ
  discountType : DiscountType
deriving DecidableEq

/-- Cart state: the owner fields, the owned CartItem rows (in Mongo a
separate collection keyed by cart id), the cached totals and the applied
coupons (src/models/Cart.ts). -/
structure CartState where
  user : Option Nat
  sessionId : Option String
  items : List CartItem
  itemCount : ℚ
  subtotal : ℚ
  taxAmount : ℚ
  shippingAmount : ℚ
  discountAmount : ℚ
  total : ℚ
  appliedCoupons : List AppliedCoupon
deriving DecidableEq

/-- Sum of the item quantities (recalculateTotals, itemCount reduce). -/
def itemsQuantity (items : List CartItem) : ℚ := (items.map (·.quantity)).sum

/-- Sum of the item totalPrice values (recalculateTotals, subtotal reduce;
the `item.totalPrice || 0` guard only replaces a falsy 0 by 0). -/
def itemsSubtotal (items : List CartItem) : ℚ := (items.map (·.totalPrice)).sum

/-- Sum of the stored per-coupon discount amounts (recalculateTotals). -/
def couponsDiscount (cs : List AppliedCoupon) : ℚ :=
  (cs.map (·.discountAmount)).sum

/-- CartSchema.methods.recalculateTotals: itemCount and subtotal from the
items, discountAmount as the sum of the stored coupon amounts, the 10
percent example tax on (subtotal - discountAmount), shippingAmount left
as is, and total = subtotal + taxAmount + shippingAmount - discountAmount. -/
def recalculateTotals (c : CartState) : CartState :=
  let subtotal := itemsSubtotal c.items
  let discountAmount := couponsDiscount c.appliedCoupons
  let taxAmount := (subtotal - discountAmount) * (1 / 10)
  { c with
    itemCount := itemsQuantity c.items
    subtotal := subtotal
    discountAmount := discountAmount
    taxAmount := taxAmount
    total := subtotal + taxAmount + c.shippingAmount - discountAmount }

/-- The CartItem save hook (calculatePrices): totalPrice is recomputed as
(base catalog price + customization and gift-wrap extras) * quantity.
`priceOf` abstracts the catalog lookup (variant price falling back to the
product final price). -/
def saveCartItem (priceOf : Nat → Option Nat → ℚ) (it : CartItem) : CartItem :=
  { it with totalPrice := (priceOf it.product it.variant + it.extras) * it.quantity }

/-- CartSchema.methods.addItem: if an item with the same product and variant
exists its quantity is incremented and the item saved (re-pricing it),
otherwise a new item is created and saved; then recalculateTotals. `freshId`
stands for the database id generated for a new row. -/
def addItem (priceOf : Nat → Option Nat → ℚ) (freshId : Nat) (c : CartState)
    (productId : Nat) (variantId : Option Nat) (quantity : ℚ) : CartState :=
  let items :=
    if c.items.any (fun it => it.product == productId && it.variant == variantId) then
      c.items.map (fun it =>
        if it.product == productId && it.variant == variantId then
          saveCartItem priceOf { it with quantity := it.quantity + quantity }
        else it)
    else
      c.items ++ [saveCartItem priceOf
        { id := freshId, product := productId, variant := variantId,
          quantity := quantity, extras := 0, totalPrice := 0 }]
  recalculateTotals { c with items := items }

/-- CartSchema.methods.removeItem: delete the row by id, then
recalculateTotals. -/
def removeItem (c : CartState) (itemId : Nat) : CartState :=
  recalculateTotals { c with items := c.items.filter (fun it => it.id != itemId) }

/-- CartSchema.methods.updateItemQuantity: quantity below or equal to 0
deletes the row; otherwise findByIdAndUpdate sets the quantity (bypassing
the CartItem save hook, so totalPrice is not re-derived here); then
recalculateTotals. -/
def updateItemQuantity (c : CartState) (itemId : Nat) (quantity : ℚ) : CartState :=
  let items :=
    if quantity ≤ 0 then c.items.filter (fun it => it.id != itemId)
    else c.items.map (fun it =>
      if it.id == itemId then { it with quantity := quantity } else it)
  recalculateTotals { c with items := items }

/-- CartSchema.methods.clear: delete every item row, then
recalculateTotals. -/
def clearCart (c : CartState) : CartState :=
  recalculateTotals { c with items := [] }

/-- A coupon document as read by applyCoupon (the Coupon model itself lives
outside this repository; these are exactly the fields applyCoupon reads). -/
structure Coupon where
  id : Nat
  code : String
  discountType : DiscountType
  discountValue : ℚ
  minimumAmount : Option ℚ
  maximumDiscount : Option ℚ
deriving DecidableEq

/-- The errors applyCoupon throws. -/
inductive CartError where
  | invalidCoupon
  | couponAlreadyApplied
  | minimumAmountRequired (m : ℚ)
deriving DecidableEq

/-- The discount computation inside applyCoupon: percentage coupons take
subtotal * value / 100 capped by a truthy maximumDiscount; fixed coupons
take the configured value directly (no cap of any kind in the source). -/
def couponDiscount (coupon : Coupon) (subtotal : ℚ) : ℚ :=
  match coupon.discountType with
  | .percentage =>
    let d := subtotal * coupon.discountValue / 100
    match truthyNum coupon.maximumDiscount with
    | some m => min d m
    | none => d
  | .fixed => coupon.discountValue

/-- The tail of applyCoupon after validation: push the applied-coupon
record, then recalculateTotals. -/
def applyCouponBody (c : CartState) (coupon : Coupon) : CartState :=
  recalculateTotals
    { c with appliedCoupons := c.appliedCoupons ++
        [{ couponId := coupon.id, code := coupon.code,
           discountAmount := couponDiscount coupon c.subtotal,
           discountType := coupon.discountType }] }

/-- CartSchema.methods.applyCoupon, given the active coupon the code lookup
found (a missing or inactive code throws invalidCoupon before this logic
runs, modelled by callers passing none): duplicate-code check, then the
truthy minimumAmount floor, then the discount computation and push. -/
def applyCoupon (c : CartState) (coupon : Coupon) : Except CartError CartState :=
  if c.appliedCoupons.any (fun ac => ac.code == coupon.code) then
    .error .couponAlreadyApplied
  else
    match truthyNum coupon.minimumAmount with
    | some m =>
      if c.subtotal < m then .error (.minimumAmountRequired m)
      else .ok (applyCouponBody c coupon)
    | none => .ok (applyCouponBody c coupon)

/-- CartSchema.methods.removeCoupon: filter the code out, then
recalculateTotals. -/
def removeCoupon (c : CartState) (code : String) : CartState :=
  recalculateTotals
    { c with appliedCoupons := c.appliedCoupons.filter (fun ac => ac.code != code) }

/-- The owner check of CartSchema.pre save: `!this.user && !this.sessionId`
rejects the save. A missing user and a missing or empty sessionId are falsy;
this function is true exactly when the save is allowed to proceed. -/
def hasOwner (user : Option Nat) (sessionId : Option String) : Bool :=
  user.isSome || (match sessionId with | some s => s != "" | none => false)

/-- The min-0 bounds the CartSchema declares on every totals field. -/
def cartTotalsNonneg (c : CartState) : Prop :=
  0 ≤ c.itemCount ∧ 0 ≤ c.subtotal ∧ 0 ≤ c.taxAmount ∧
    0 ≤ c.shippingAmount ∧ 0 ≤ c.discountAmount ∧ 0 ≤ c.total

/-- A tax rate document, restricted to the fields calculateTax reads
(src/models/TaxRate.ts). -/
structure TaxRate where
  name : String
  rate : ℚ
  compound : Bool
  applyToShipping : Bool
  applyToDigitalProducts : Bool
  taxCls : String
  applicableCategories : List Nat
  excludedCategories : List Nat
deriving DecidableEq

/-- The options argument of calculateTax. -/
structure TaxOptions where
  categories : List Nat
  isShipping : Bool
  isDigital : Bool
  taxCls : Option String
deriving DecidableEq

/-- The applicability filter inside calculateTax (shipping and digital
flags, tax class, category include and exclude lists). -/
def rateApplies (o : TaxOptions) (r : TaxRate) : Bool :=
  if o.isShipping && !r.applyToShipping then false
  else if o.isDigital && !r.applyToDigitalProducts then false
  else if (match o.taxCls with | some t => t != "" && r.taxCls != t | none => false) then false
  else if o.categories.length > 0 && r.applicableCategories.length > 0 &&
      !(o.categories.any (fun cat => r.applicableCategories.contains cat)) then false
  else if o.categories.length > 0 && r.excludedCategories.length > 0 &&
      (o.categories.any (fun cat => r.excludedCategories.contains cat)) then false
  else true

/-- One row of the per-rate breakdown calculateTax returns. -/
structure TaxDetail where
  name : String
  rate : ℚ
  amount : ℚ
  compound : Bool
deriving DecidableEq

/-- The value calculateTax returns. -/
structure TaxResult where
  totalTax : ℚ
  taxDetails : List TaxDetail
  effectiveRate : ℚ
deriving DecidableEq

/-- The loop state of calculateTax: running totalTax, the compound base
(initialised to the original amount) and the breakdown accumulator. -/
structure TaxAcc where
  totalTax : ℚ
  compoundBase : ℚ
  taxDetails : List TaxDetail

/-- One iteration of the non-compound loop of calculateTax: the rate taxes
the original amount; totalTax and the breakdown grow, compoundBase does
not. -/
def taxStepNC (amount : ℚ) (s : TaxAcc) (r : TaxRate) : TaxAcc :=
  let taxAmount := amount * r.rate / 100
  ⟨s.totalTax + taxAmount, s.compoundBase,
    s.taxDetails ++ [⟨r.name, r.rate, taxAmount, false⟩]⟩

/-- One iteration of the compound loop of calculateTax: the rate taxes the
running compoundBase, which then grows by the tax just applied. -/
def taxStepC (s : TaxAcc) (r : TaxRate) : TaxAcc :=
  let taxAmount := s.compoundBase * r.rate / 100
  ⟨s.totalTax + taxAmount, s.compoundBase + taxAmount,
    s.taxDetails ++ [⟨r.name, r.rate, taxAmount, true⟩]⟩

/-- TaxRateSchema.statics.calculateTax on the applicable rates: first the
non-compound loop, each rate taxing the original amount; then the compound
loop, each rate taxing compoundBase (initialised to the original amount and
grown only by compound tax) ; finally the rounded totalTax and the
effective rate computed from the unrounded total. -/
def calculateTax (amount : ℚ) (applicableRates : List TaxRate) : TaxResult :=
  let s1 := (applicableRates.filter (fun r => !r.compound)).foldl
    (taxStepNC amount) ⟨0, amount, []⟩
  let s2 := (applicableRates.filter (fun r => r.compound)).foldl taxStepC s1
  ⟨jsRound (s2.totalTax * 100) / 100, s2.taxDetails,
    if amount > 0 then s2.totalTax / amount * 100 else 0⟩

/-- calculateTax including its options filter over the rates found for the
address. -/
def calculateTaxWithOptions (amount : ℚ) (rates : List TaxRate)
    (o : TaxOptions) : TaxResult :=
  calculateTax amount (rates.filter (rateApplies o))

/-- Order status enum (src/models/Order.ts). -/
inductive OrderStatus where
  | pending
  | confirmed
  | processing
  | shipped
  | delivered
  | cancelled
  | refunded
deriving DecidableEq, Fintype

/-- Payment status enum; partlyRefunded stands for the source value
written as partially underscore refunded. -/
inductive PaymentStatus where
  | pending
  | paid
  | failed
  | cancelled
  | refunded
  | partlyRefunded
deriving DecidableEq

/-- Fulfillment status enum; partFulfilled stands for the source value
written as the bare word for an incomplete fulfillment. -/
inductive FulfillmentStatus where
  | unfulfilled
  | partFulfilled
  | fulfilled
  | shipped
  | delivered
deriving DecidableEq

/-- Order state restricted to the fields the lifecycle methods read and
write. -/
structure OrderState where
  status : OrderStatus
  paymentStatus : PaymentStatus
  fulfillmentStatus : FulfillmentStatus
  total : ℚ
  refundedAmount : ℚ
deriving DecidableEq

/-- OrderSchema.virtual canCancel. -/
def canCancel (o : OrderState) : Bool :=
  (o.status == .pending || o.status == .confirmed) && o.paymentStatus != .paid

/-- OrderSchema.virtual canRefund. -/
def canRefund (o : OrderState) : Bool :=
  o.paymentStatus == .paid && !(o.status == .cancelled || o.status == .refunded)

/-- The errors the order lifecycle methods throw. -/
inductive OrderError where
  | cannotCancel
  | cannotRefund
deriving DecidableEq

/-- The status branch of OrderSchema.pre save, restricted to its one
non-timestamp effect: when the status was modified, entering shipped lifts
an unfulfilled fulfillmentStatus to shipped and entering delivered forces
fulfillmentStatus to delivered. -/
def orderPreSave (oldStatus : OrderStatus) (o : OrderState) : OrderState :=
  if oldStatus ≠ o.status then
    match o.status with
    | .shipped =>
      if o.fulfillmentStatus = .unfulfilled then { o with fulfillmentStatus := .shipped } else o
    | .delivered => { o with fulfillmentStatus := .delivered }
    | _ => o
  else o

/-- OrderSchema.methods.cancel: throws unless canCancel, otherwise sets
status to cancelled and saves. -/
def cancel (o : OrderState) : Except OrderError OrderState :=
  if canCancel o then .ok (orderPreSave o.status { o with status := .cancelled })
  else .error .cannotCancel

/-- OrderSchema.methods.markAsPaid: unconditionally sets paymentStatus to
paid, promotes a pending status to confirmed and saves. -/
def markAsPaid (o : OrderState) : OrderState :=
  let o1 := { o with paymentStatus := PaymentStatus.paid }
  let o2 := if o1.status = .pending then { o1 with status := OrderStatus.confirmed } else o1
  orderPreSave o.status o2

/-- OrderSchema.methods.markAsShipped: unconditionally sets status and
fulfillmentStatus to shipped and saves (no guard in the source). -/
def markAsShipped (o : OrderState) : OrderState :=
  orderPreSave o.status
    { o with status := OrderStatus.shipped, fulfillmentStatus := FulfillmentStatus.shipped }

/-- OrderSchema.methods.markAsDelivered: unconditionally sets status and
fulfillmentStatus to delivered and saves (no guard in the source). -/
def markAsDelivered (o : OrderState) : OrderState :=
  orderPreSave o.status
    { o with status := OrderStatus.delivered, fulfillmentStatus := FulfillmentStatus.delivered }

/-- OrderSchema.methods.refund: throws unless canRefund; the requested
amount defaults to the full total when absent or zero (JavaScript
`amount || this.total`); reaching the remaining total makes the order
fully refunded, otherwise the payment becomes partly refunded and the
cumulative refundedAmount grows. -/
def refund (o : OrderState) (amount : Option ℚ) : Except OrderError OrderState :=
  if canRefund o then
    let refundAmount := match truthyNum amount with | some a => a | none => o.total
    if refundAmount ≥ o.total - o.refundedAmount then
      .ok (orderPreSave o.status
        { o with status := OrderStatus.refunded, paymentStatus := PaymentStatus.refunded,
                 refundedAmount := o.total })
    else
      .ok (orderPreSave o.status
        { o with paymentStatus := PaymentStatus.partlyRefunded,
                 refundedAmount := o.refundedAmount + refundAmount })
  else .error .cannotRefund

/-- Shipping method type enum (src/models/ShippingMethod.ts). -/
inductive ShippingType where
  | flatRate
  | free
  | weightBased
  | priceBased
  | quantityBased
  | calculated
deriving DecidableEq

/-- A weight tier row. -/
structure WeightRate where
  minWeight : ℚ
  maxWeight : Option ℚ
  rate : ℚ
deriving DecidableEq

/-- A price tier row. -/
structure PriceRate where
  minPrice : ℚ
  maxPrice : Option ℚ
  rate : ℚ
deriving DecidableEq

/-- A quantity tier row. -/
structure QuantityRate where
  minQuantity : ℚ
  maxQuantity : Option ℚ
  rate : ℚ
deriving DecidableEq

/-- A shipping method restricted to the fields calculateRate reads. -/
structure ShippingMethod where
  type : ShippingType
  cost : ℚ
  freeShippingThreshold : Option ℚ
  weightRates : List WeightRate
  priceRates : List PriceRate
  quantityRates : List QuantityRate
deriving DecidableEq

/-- The orderData argument of calculateRate. -/
structure OrderData where
  weight : Option ℚ
  total : ℚ
  quantity : ℚ
deriving DecidableEq

/-- The error the calculated strategy throws. -/
inductive ShippingError where
  | calculatedRequiresApi
deriving DecidableEq

/-- The tier test of the calculateWeightBasedRate loop:
`weight >= rate.minWeight && (!rate.maxWeight || weight <= rate.maxWeight)`,
so the upper bound is inclusive and a missing or zero maxWeight is
unbounded. -/
def weightTierMatches (weight : ℚ) (r : WeightRate) : Bool :=
  weight ≥ r.minWeight &&
    (match truthyNum r.maxWeight with | none => true | some m => weight ≤ m)

/-- The fallback of calculateWeightBasedRate: sort descending by minWeight
and take the head. The JavaScript sort is stable, so the head is the first
tier carrying the maximal minWeight, which is what this fold returns. -/
def maxMinWeightTier : List WeightRate → Option WeightRate
  | [] => none
  | r :: rs => some (rs.foldl (fun best x => if x.minWeight > best.minWeight then x else best) r)

/-- ShippingMethodSchema.methods.calculateWeightBasedRate. -/
def calculateWeightBasedRate (rates : List WeightRate) (weight : ℚ) : ℚ :=
  match rates.find? (weightTierMatches weight) with
  | some r => r.rate
  | none =>
    match maxMinWeightTier rates with
    | some r => r.rate
    | none => 0

/-- The tier test of the calculatePriceBasedRate loop. -/
def priceTierMatches (price : ℚ) (r : PriceRate) : Bool :=
  price ≥ r.minPrice &&
    (match truthyNum r.maxPrice with | none => true | some m => price ≤ m)

/-- The fallback of calculatePriceBasedRate, as for weight tiers. -/
def maxMinPriceTier : List PriceRate → Option PriceRate
  | [] => none
  | r :: rs => some (rs.foldl (fun best x => if x.minPrice > best.minPrice then x else best) r)

/-- ShippingMethodSchema.methods.calculatePriceBasedRate. -/
def calculatePriceBasedRate (rates : List PriceRate) (price : ℚ) : ℚ :=
  match rates.find? (priceTierMatches price) with
  | some r => r.rate
  | none =>
    match maxMinPriceTier rates with
    | some r => r.rate
    | none => 0

/-- The tier test of the calculateQuantityBasedRate loop. -/
def quantityTierMatches (quantity : ℚ) (r : QuantityRate) : Bool :=
  quantity ≥ r.minQuantity &&
    (match truthyNum r.maxQuantity with | none => true | some m => quantity ≤ m)

/-- The fallback of calculateQuantityBasedRate, as for weight tiers. -/
def maxMinQuantityTier : List QuantityRate → Option QuantityRate
  | [] => none
  | r :: rs => some (rs.foldl (fun best x => if x.minQuantity > best.minQuantity then x else best) r)

/-- ShippingMethodSchema.methods.calculateQuantityBasedRate. -/
def calculateQuantityBasedRate (rates : List QuantityRate) (quantity : ℚ) : ℚ :=
  match rates.find? (quantityTierMatches quantity) with
  | some r => r.rate
  | none =>
    match maxMinQuantityTier rates with
    | some r => r.rate
    | none => 0

/-- ShippingMethodSchema.methods.calculateRate: the truthy free-shipping
threshold check precedes strategy dispatch; then each strategy computes as
in the source, the calculated strategy throwing. -/
def calculateRate (m : ShippingMethod) (d : OrderData) : Except ShippingError ℚ :=
  if (match truthyNum m.freeShippingThreshold with
      | some t => decide (d.total ≥ t)
      | none => false) then
    .ok 0
  else
    match m.type with
    | .flatRate => .ok m.cost
    | .free => .ok 0
    | .weightBased => .ok (calculateWeightBasedRate m.weightRates ((truthyNum d.weight).getD 0))
    | .priceBased => .ok (calculatePriceBasedRate m.priceRates d.total)
    | .quantityBased => .ok (calculateQuantityBasedRate m.quantityRates d.quantity)
    | .calculated => .error .calculatedRequiresApi

/-- The totals coherence the Cart spec demands: total is the linear
combination of the other cached totals, subtotal is the item sum and
discountAmount is the applied-coupon sum. -/
def totalsConsistent (c : CartState) : Prop :=
  c.total = c.subtotal + c.taxAmount + c.shippingAmount - c.discountAmount ∧
    c.subtotal = itemsSubtotal c.items ∧
    c.discountAmount = couponsDiscount c.appliedCoupons

/-- Sequential application of several coupons, each call awaited in turn as
the route handlers do; the first failure aborts. -/
def applyCoupons (c : CartState) : List Coupon → Except CartError CartState
  | [] => .ok c
  | cp :: cps =>
    match applyCoupon c cp with
    | .ok c1 => applyCoupons c1 cps
    | .error e => .error e

/-- Modelled from the spec wording of the amended compound-tax claim: each
compound rate taxes a running base that starts at the original amount and
grows by the compound tax applied so far. -/
def compoundSeq (base : ℚ) : List TaxRate → List TaxDetail
  | [] => []
  | r :: rs =>
    let t := base * r.rate / 100
    ⟨r.name, r.rate, t, true⟩ :: compoundSeq (base + t) rs

/-- Modelled from the spec wording of the weight-tier claim: the tier test
with a half-open interval, the upper bound exclusive. -/
def weightTierHalfOpen (weight : ℚ) (r : WeightRate) : Bool :=
  weight ≥ r.minWeight &&
    (match r.maxWeight with | none => true | some m => decide (weight < m))

/-- Position of a status in the linear fulfillment progression; the two
alternate terminal states sit outside the progression and get the top
ranks only so that the function is total. -/
def statusRank : OrderStatus → Nat
  | .pending => 0
  | .confirmed => 1
  | .processing => 2
  | .shipped => 3
  | .delivered => 4
  | .cancelled => 5
  | .refunded => 6

/-- One-directionality of a status change: a terminal status never leaves,
and inside the linear progression the rank never decreases (entering a
terminal state from the progression is allowed). -/
def noRegression (s1 s2 : OrderStatus) : Bool :=
  match s1 with
  | .cancelled => s2 == .cancelled
  | .refunded => s2 == .refunded
  | _ =>
    match s2 with
    | .cancelled => true
    | .refunded => true
    | _ => decide (statusRank s1 ≤ statusRank s2)

/-- The guarded order lifecycle operations (the ones whose embedding can
throw, plus markAsPaid which never moves the status backwards). -/
inductive SafeOp where
  | pay
  | cancelOrder
  | refundOrder (amount : Option ℚ)

/-- Run one guarded operation; a thrown error leaves the order unchanged,
exactly as an exception raised before any assignment does in the source. -/
def applySafe (op : SafeOp) (o : OrderState) : OrderState :=
  match op with
  | .pay => markAsPaid o
  | .cancelOrder => match cancel o with | .ok o2 => o2 | .error _ => o
  | .refundOrder a => match refund o a with | .ok o2 => o2 | .error _ => o

/-- Run a sequence of guarded operations. -/
def runSafe (ops : List SafeOp) (o : OrderState) : OrderState :=
  ops.foldl (fun s op => applySafe op s) o

/-- Concrete rate pair for the compound-tax boundary case: one 8 percent
simple rate and one 5 percent compound rate. -/
def taxCexRates : List TaxRate :=
  [⟨"vat", 8, false, true, true, "standard", [], []⟩,
   ⟨"pst", 5, true, true, true, "standard", [], []⟩]

/-- A paid 100 dollar order with nothing refunded yet. -/
def ordPaid : OrderState :=
  ⟨.confirmed, .paid, .unfulfilled, 100, 0⟩

/-- The state refund 30 produces from ordPaid. -/
def ordAfter30 : OrderState :=
  ⟨.confirmed, .partlyRefunded, .unfulfilled, 100, 30⟩

/-- A fresh pending order. -/
def ordPending : OrderState :=
  ⟨.pending, .pending, .unfulfilled, 100, 0⟩

/-- A delivered, paid order. -/
def ordDelivered : OrderState :=
  ⟨.delivered, .paid, .delivered, 100, 0⟩

/-- A cancelled order. -/
def ordCancelled : OrderState :=
  ⟨.cancelled, .pending, .unfulfilled, 100, 0⟩

/-- The weight tiers of the spec example: 0 to 5 kg at 5, 5 to 20 kg at 10,
20 kg and beyond at 20. -/
def tiers : List WeightRate :=
  [⟨0, some 5, 5⟩, ⟨5, some 20, 10⟩, ⟨20, none, 20⟩]

/-- Weight tiers that are all bounded, so a large weight exceeds them all. -/
def tiersB : List WeightRate :=
  [⟨0, some 5, 5⟩, ⟨5, some 20, 10⟩]

/-- A weight-based shipping method carrying the example tiers and no free
shipping threshold. -/
def wMethod : ShippingMethod :=
  ⟨.weightBased, 0, none, tiers, [], []⟩

/-- A user cart holding one 100 dollar line item, totals freshly
recalculated. -/
def cart100 : CartState :=
  { user := some 1, sessionId := none,
    items := [⟨1, 10, none, 1, 0, 100⟩],
    itemCount := 1, subtotal := 100, taxAmount := 10, shippingAmount := 0,
    discountAmount := 0, total := 110, appliedCoupons := [] }

/-- A user cart holding one 10 dollar line item, totals freshly
recalculated. -/
def cartSmall : CartState :=
  { user := some 1, sessionId := none,
    items := [⟨1, 10, none, 1, 0, 10⟩],
    itemCount := 1, subtotal := 10, taxAmount := 1, shippingAmount := 0,
    discountAmount := 0, total := 11, appliedCoupons := [] }

/-- cart100 carrying a session token as well as its user. -/
def cartBothOwners : CartState :=
  { cart100 with sessionId := some ("sess") }

/-- A 10 percent coupon with no cap and no minimum. -/
def cpA : Coupon := ⟨1, "A10", .percentage, 10, none, none⟩

/-- A 5 dollar fixed coupon. -/
def cpB : Coupon := ⟨2, "B5", .fixed, 5, none, none⟩

/-- A 50 dollar fixed coupon, larger than the small cart subtotal. -/
def cpBig : Coupon := ⟨3, "BIG", .fixed, 50, none, none⟩

/-- A catalog pricing product 20 at 50 dollars and everything else at
100 dollars. -/
def priceOf1 : Nat → Option Nat → ℚ := fun p _ => if p = 20 then 50 else 100

/-- cart100 after the 10 percent coupon is applied. -/
def cartWithA : CartState := applyCouponBody cart100 cpA

/-- cart100 after both the 10 percent coupon and the 5 dollar fixed coupon
are applied. -/
def cart2AB : CartState := applyCouponBody cartWithA cpB

end Ecom

namespace Ecom



lemma recalc_consistent (c : CartState) : totalsConsistent (recalculateTotals c) :=
  ⟨rfl, rfl, rfl⟩

lemma applyCoupon_ok_eq {c : CartState} {cp : Coupon} {c' : CartState}
    (h : applyCoupon c cp = .ok c') : c' = applyCouponBody c cp := by
  unfold applyCoupon at h
  split at h
  · simp at h
  · split at h
    · split at h
      · simp at h
      · simp only [Except.ok.injEq] at h
        exact h.symm
    · simp only [Except.ok.injEq] at h
      exact h.symm

/-- Claim C1: after every mutating cart operation (addItem, removeItem,
updateItemQuantity, clear, applyCoupon, removeCoupon) the stored totals
satisfy total = subtotal + taxAmount + shippingAmount - discountAmount,
with subtotal the sum of the item totalPrice values and discountAmount the
sum of the applied-coupon amounts; no stale totals survive a mutation. -/
theorem c1_totals_recomputed (priceOf : Nat → Option Nat → ℚ)
    (freshId productId itemId : Nat) (variantId : Option Nat) (q : ℚ)
    (c : CartState) (coupon : Coupon) (code : String) :
    totalsConsistent (addItem priceOf freshId c productId variantId q) ∧
    totalsConsistent (removeItem c itemId) ∧
    totalsConsistent (updateItemQuantity c itemId q) ∧
    totalsConsistent (clearCart c) ∧
    (∀ c', applyCoupon c coupon = .ok c' → totalsConsistent c') ∧
    totalsConsistent (removeCoupon c code) := by
  refine ⟨recalc_consistent _, recalc_consistent _, recalc_consistent _,
    recalc_consistent _, ?_, recalc_consistent _⟩
  intro c' h
  rw [applyCoupon_ok_eq h]
  exact recalc_consistent _

/-- Witness for C1: a concrete addItem and a concrete successful
applyCoupon, both leaving consistent totals. -/
theorem c1_totals_recomputed_witness :
    totalsConsistent (addItem priceOf1 2 cart100 20 none 1) ∧
    totalsConsistent cartWithA := by
  have h := c1_totals_recomputed priceOf1 2 20 1 none 1 cart100 cpA ("X")
  exact ⟨h.1, h.2.2.2.2.1 cartWithA (by rfl)⟩

/-- Counterexample to claim C3 as stated: applying a 50 dollar fixed
coupon to a cart whose subtotal is 10 dollars stores a discount of 50, not
the subtotal-clamped 10 the claim requires; the recomputed total is then
-44, violating the min-0 schema bounds instead of being clamped. -/
theorem c3_counterexample :
    applyCoupon cartSmall cpBig = .ok (applyCouponBody cartSmall cpBig) ∧
    couponsDiscount (applyCouponBody cartSmall cpBig).appliedCoupons = 50 ∧
    cartSmall.subtotal = 10 ∧
    (10 : ℚ) < 50 ∧
    (applyCouponBody cartSmall cpBig).total = -44 := by
  refine ⟨by rfl, ?_, by rfl, by norm_num, ?_⟩
  · norm_num [couponsDiscount, applyCouponBody, recalculateTotals, couponDiscount,
      cartSmall, cpBig, truthyNum]
  · norm_num [applyCouponBody, recalculateTotals, couponDiscount, couponsDiscount,
      itemsSubtotal, cartSmall, cpBig, truthyNum]

/-- Claim C3 as amended: when applyCoupon accepts a coupon, the stored
discount of a percentage coupon is subtotal times rate over 100, capped by
a truthy maximum discount; the stored discount of a fixed coupon is the
configured amount with no clamping to the subtotal. -/
theorem c3_stored_discount (c : CartState) (cp : Coupon) (c' : CartState)
    (h : applyCoupon c cp = .ok c') :
    ∃ ac : AppliedCoupon, c'.appliedCoupons.getLast? = some ac ∧ ac.code = cp.code ∧
      (cp.discountType = .percentage → truthyNum cp.maximumDiscount = none →
        ac.discountAmount = c.subtotal * cp.discountValue / 100) ∧
      (∀ m : ℚ, cp.discountType = .percentage → truthyNum cp.maximumDiscount = some m →
        ac.discountAmount = min (c.subtotal * cp.discountValue / 100) m) ∧
      (cp.discountType = .fixed → ac.discountAmount = cp.discountValue) := by
  rw [applyCoupon_ok_eq h]
  refine ⟨⟨cp.id, cp.code, couponDiscount cp c.subtotal, cp.discountType⟩, ?_, rfl, ?_, ?_, ?_⟩
  · show (c.appliedCoupons ++ [_]).getLast? = _
    simp
  · intro hp hm
    simp [couponDiscount, hp, hm]
  · intro m hp hm
    simp [couponDiscount, hp, hm]
  · intro hf
    simp [couponDiscount, hf]

/-- Witness for C3 at the concrete cart100 and 10 percent coupon. -/
theorem c3_stored_discount_witness :
    ∃ ac : AppliedCoupon, cartWithA.appliedCoupons.getLast? = some ac ∧ ac.code = cpA.code ∧
      (cpA.discountType = .percentage → truthyNum cpA.maximumDiscount = none →
        ac.discountAmount = cart100.subtotal * cpA.discountValue / 100) ∧
      (∀ m : ℚ, cpA.discountType = .percentage → truthyNum cpA.maximumDiscount = some m →
        ac.discountAmount = min (cart100.subtotal * cpA.discountValue / 100) m) ∧
      (cpA.discountType = .fixed → ac.discountAmount = cpA.discountValue) :=
  c3_stored_discount cart100 cpA cartWithA (by rfl)

/-- Claim C4, evaluated at its failing input: refund 30 on a paid 100
dollar order does set partlyRefunded with refundedAmount 30 and an
unchanged status, but the follow-up refund 70 throws cannotRefund (the
canRefund virtual demands paymentStatus paid, which the first refund just
cleared) instead of completing the refund as the claim states. -/
theorem c4_refund_sequence :
    refund ordPaid (some 30) = .ok ordAfter30 ∧
    ordAfter30.paymentStatus = .partlyRefunded ∧
    ordAfter30.refundedAmount = 30 ∧
    ordAfter30.status = ordPaid.status ∧
    refund ordAfter30 (some 70) = .error .cannotRefund := by
  refine ⟨?_, rfl, rfl, rfl, by rfl⟩
  norm_num [refund, canRefund, ordPaid, ordAfter30, orderPreSave, truthyNum]
  exact fun h => absurd (h (by decide)) (by decide)

/-- Claim C5: cancel succeeds exactly when the status is pending or
confirmed and the payment is not paid; every other order gets the
cannotCancel error, and since the throw precedes every assignment in the
source, the failed call performs no mutation (the embedded error branch
carries no state). -/
theorem c5_cancel_guard (o : OrderState) :
    ((∃ o', cancel o = .ok o') ↔
      ((o.status = .pending ∨ o.status = .confirmed) ∧ o.paymentStatus ≠ .paid)) ∧
    (¬((o.status = .pending ∨ o.status = .confirmed) ∧ o.paymentStatus ≠ .paid) →
      cancel o = .error .cannotCancel) := by
  have hcan : canCancel o = true ↔
      ((o.status = .pending ∨ o.status = .confirmed) ∧ o.paymentStatus ≠ .paid) := by
    simp [canCancel]
  by_cases hc : canCancel o = true
  · refine ⟨⟨fun _ => hcan.mp hc, fun _ => ?_⟩, fun hn => absurd (hcan.mp hc) hn⟩
    exact ⟨_, by rw [cancel, if_pos hc]⟩
  · have hnot := fun hp => hc (hcan.mpr hp)
    refine ⟨⟨fun he => ?_, fun hp => absurd hp hnot⟩, fun _ => by rw [cancel, if_neg hc]⟩
    obtain ⟨o', ho⟩ := he
    rw [cancel, if_neg hc] at ho
    exact absurd ho (by simp)

/-- Witness for C5: cancelling a paid order fails with cannotCancel. -/
theorem c5_cancel_guard_witness :
    cancel ordPaid = .error .cannotCancel :=
  (c5_cancel_guard ordPaid).2 (by simp [ordPaid])

/-- Counterexample to claim C9 as stated: a cart carrying both a user id
and a session token passes the pre-save owner check, so having both
owners is not rejected. -/
theorem c9_counterexample :
    hasOwner cartBothOwners.user cartBothOwners.sessionId = true ∧
    cartBothOwners.user.isSome = true ∧
    cartBothOwners.sessionId.isSome = true :=
  ⟨rfl, rfl, rfl⟩

/-- Claim C9 as amended: the pre-save hook rejects exactly the carts
with no truthy owner field (no user and a missing or empty sessionId);
a cart with both a user and a nonempty session token is accepted. -/
theorem c9_owner_check (u : Option Nat) (s : Option String) :
    (hasOwner u s = false ↔ (u = none ∧ (s = none ∨ s = some ("")))) ∧
    (∀ (uid : Nat) (sid : String), sid ≠ "" → hasOwner (some uid) (some sid) = true) := by
  constructor
  · cases u with
    | some uid => simp [hasOwner]
    | none =>
      cases s with
      | none => simp [hasOwner]
      | some str => simp [hasOwner]
  · intro uid sid _
    simp [hasOwner]

/-- Witness for C9 at a concrete user id and session token. -/
theorem c9_owner_check_witness :
    hasOwner (some 1) (some ("sess")) = true :=
  (c9_owner_check (some 1) (some ("sess"))).2 1 ("sess") (by decide)

/-- Claim C10: recalculateTotals and the item mutations never touch the
stored applied-coupon records, so a coupon discount is frozen at apply
time: after applying the 10 percent coupon on a 100 dollar subtotal and
then adding a 50 dollar item, the stored discount and the cart
discountAmount are still 10 while the subtotal has grown to 150. -/
theorem c10_discount_frozen :
    (∀ c : CartState, (recalculateTotals c).appliedCoupons = c.appliedCoupons) ∧
    (∀ (priceOf : Nat → Option Nat → ℚ) (freshId : Nat) (c : CartState) (p : Nat)
        (v : Option Nat) (q : ℚ),
      (addItem priceOf freshId c p v q).appliedCoupons = c.appliedCoupons) ∧
    applyCoupon cart100 cpA = .ok cartWithA ∧
    couponsDiscount cartWithA.appliedCoupons = 10 ∧
    (addItem priceOf1 2 cartWithA 20 none 1).discountAmount = 10 ∧
    (addItem priceOf1 2 cartWithA 20 none 1).subtotal = 150 := by
  refine ⟨fun c => rfl, fun _ _ _ _ _ _ => rfl, by rfl, ?_, ?_, ?_⟩
  · norm_num [couponsDiscount, cartWithA, applyCouponBody, recalculateTotals,
      couponDiscount, cart100, cpA, truthyNum]
  · norm_num [addItem, recalculateTotals, couponsDiscount, itemsSubtotal, saveCartItem,
      cartWithA, applyCouponBody, couponDiscount, cart100, cpA, priceOf1, truthyNum]
  · norm_num [addItem, recalculateTotals, couponsDiscount, itemsSubtotal, saveCartItem,
      cartWithA, applyCouponBody, couponDiscount, cart100, cpA, priceOf1, truthyNum]


lemma foldl_taxStepNC (amount : ℚ) (l : List TaxRate) (s : TaxAcc) :
    l.foldl (taxStepNC amount) s =
      ⟨s.totalTax + (l.map (fun r => amount * r.rate / 100)).sum, s.compoundBase,
        s.taxDetails ++ l.map (fun r => ⟨r.name, r.rate, amount * r.rate / 100, false⟩)⟩ := by
  induction l generalizing s with
  | nil => simp
  | cons r rs ih =>
    simp only [List.foldl_cons, List.map_cons, List.sum_cons, taxStepNC, ih,
      TaxAcc.mk.injEq, List.append_assoc, List.singleton_append]
    refine ⟨by ring, by simp⟩

lemma foldl_taxStepC (l : List TaxRate) (s : TaxAcc) :
    l.foldl taxStepC s =
      ⟨s.totalTax + ((compoundSeq s.compoundBase l).map (fun d => d.amount)).sum,
        s.compoundBase + ((compoundSeq s.compoundBase l).map (fun d => d.amount)).sum,
        s.taxDetails ++ compoundSeq s.compoundBase l⟩ := by
  induction l generalizing s with
  | nil => simp [compoundSeq]
  | cons r rs ih =>
    simp only [List.foldl_cons, compoundSeq, List.map_cons, List.sum_cons, taxStepC, ih,
      TaxAcc.mk.injEq, List.append_assoc, List.singleton_append]
    refine ⟨by ring, by ring, by simp⟩

/-- Claim C2 as amended: calculateTax gives every non-compound rate a
breakdown entry taxing the original amount, then every compound rate an
entry taxing a running base that starts at the original amount and grows
only by the compound tax applied so far (non-compound tax is excluded from
the base); totalTax is the rounded sum of the breakdown amounts, so every
applied rate is recorded. -/
theorem c2_tax_breakdown (amount : ℚ) (rates : List TaxRate) :
    (calculateTax amount rates).taxDetails =
      (rates.filter (fun r => !r.compound)).map
        (fun r => ⟨r.name, r.rate, amount * r.rate / 100, false⟩) ++
        compoundSeq amount (rates.filter (fun r => r.compound)) ∧
    (calculateTax amount rates).totalTax =
      jsRound (((calculateTax amount rates).taxDetails.map (fun d => d.amount)).sum * 100) / 100 := by
  constructor
  · simp only [calculateTax]
    rw [foldl_taxStepNC, foldl_taxStepC]
    simp
  · simp only [calculateTax]
    rw [foldl_taxStepNC, foldl_taxStepC]
    simp only [List.map_append, List.sum_append, List.map_map]
    norm_num [Function.comp_def]

/-- Counterexample to claim C2 as stated: on a 100 dollar amount with an
8 percent non-compound rate and a 5 percent compound rate, the compound
entry records 5 (base 100), while a base of amount plus all accumulated
tax (108) would give 27 over 5, a strictly larger value. -/
theorem c2_counterexample :
    (calculateTax 100 taxCexRates).taxDetails =
      [⟨"vat", 8, 8, false⟩, ⟨"pst", 5, 5, true⟩] ∧
    (100 + 8) * (5 : ℚ) / 100 = 27 / 5 ∧
    (5 : ℚ) < 27 / 5 := by
  refine ⟨?_, by norm_num, by norm_num⟩
  norm_num [calculateTax, taxCexRates, taxStepNC, taxStepC, List.filter]

lemma argmaxW (r : WeightRate) (rs : List WeightRate) :
    ∃ b : WeightRate,
      rs.foldl (fun best x => if x.minWeight > best.minWeight then x else best) r = b ∧
      (b = r ∨ b ∈ rs) ∧ r.minWeight ≤ b.minWeight ∧
      ∀ x ∈ rs, x.minWeight ≤ b.minWeight := by
  induction rs generalizing r with
  | nil => exact ⟨r, rfl, Or.inl rfl, le_refl _, by simp⟩
  | cons x rs ih =>
    rw [List.foldl_cons]
    by_cases h : x.minWeight > r.minWeight
    · rw [if_pos h]
      obtain ⟨b, hb, hmem, hle, hall⟩ := ih x
      refine ⟨b, hb, ?_, le_of_lt (lt_of_lt_of_le h hle), ?_⟩
      · rcases hmem with rfl | hm
        · exact Or.inr (List.mem_cons_self _ _)
        · exact Or.inr (List.mem_cons_of_mem _ hm)
      · intro y hy
        rcases List.mem_cons.mp hy with rfl | hm
        · exact hle
        · exact hall y hm
    · rw [if_neg h]
      obtain ⟨b, hb, hmem, hle, hall⟩ := ih r
      refine ⟨b, hb, ?_, hle, ?_⟩
      · rcases hmem with rfl | hm
        · exact Or.inl rfl
        · exact Or.inr (List.mem_cons_of_mem _ hm)
      · intro y hy
        rcases List.mem_cons.mp hy with rfl | hm
        · exact le_trans (le_of_not_lt h) hle
        · exact hall y hm

/-- Counterexample to claim C6 as stated: with the example tiers, a
weight of exactly 5 kg falls in the first tier (the source compares
weight less-or-equal maxWeight, an inclusive upper bound) and costs 5,
while the tier whose half-open interval [min, max) contains 5 is the
second one at rate 10. -/
theorem c6_counterexample :
    calculateRate wMethod ⟨some 5, 50, 1⟩ = .ok 5 ∧
    tiers.find? (weightTierHalfOpen 5) = some ⟨5, some 20, 10⟩ ∧
    (5 : ℚ) < 10 :=
  ⟨by rfl, by rfl, by norm_num⟩

/-- Claim C6 as amended: the example weights 3, 19.99 and 25 kg cost 5,
10 and 20; in general the returned rate belongs to a tier whose inclusive
interval contains the weight, and when no tier matches, to a tier whose
minWeight is maximal (cap to highest tier, no failure). -/
theorem c6_weight_tiers :
    (calculateRate wMethod ⟨some 3, 50, 1⟩ = .ok 5 ∧
     calculateRate wMethod ⟨some (1999 / 100), 50, 1⟩ = .ok 10 ∧
     calculateRate wMethod ⟨some 25, 50, 1⟩ = .ok 20) ∧
    (∀ (rs : List WeightRate) (w : ℚ), (∃ r ∈ rs, weightTierMatches w r = true) →
      ∃ r ∈ rs, weightTierMatches w r = true ∧ calculateWeightBasedRate rs w = r.rate) ∧
    (∀ (rs : List WeightRate) (w : ℚ), rs ≠ [] →
      (∀ r ∈ rs, weightTierMatches w r = false) →
      ∃ r ∈ rs, (∀ r2 ∈ rs, r2.minWeight ≤ r.minWeight) ∧
        calculateWeightBasedRate rs w = r.rate) := by
  have hconc : calculateRate wMethod ⟨some (1999 / 100), 50, 1⟩ = .ok 10 := by
    norm_num [calculateRate, wMethod, tiers, truthyNum, calculateWeightBasedRate,
      weightTierMatches, List.find?, maxMinWeightTier]
  refine ⟨⟨by rfl, hconc, by rfl⟩, ?_, ?_⟩
  · intro rs w hex
    cases hfind : rs.find? (weightTierMatches w) with
    | none =>
      rw [List.find?_eq_none] at hfind
      obtain ⟨r, hr, hp⟩ := hex
      exact absurd hp (by simpa using hfind r hr)
    | some r =>
      refine ⟨r, List.mem_of_find?_eq_some hfind, List.find?_some hfind, ?_⟩
      unfold calculateWeightBasedRate
      rw [hfind]
  · intro rs w hne hall
    have hfind : rs.find? (weightTierMatches w) = none :=
      List.find?_eq_none.mpr (fun x hx => by simp [hall x hx])
    cases rs with
    | nil => exact absurd rfl hne
    | cons r rs =>
      obtain ⟨b, hb, hmem, hle, hballs⟩ := argmaxW r rs
      refine ⟨b, ?_, ?_, ?_⟩
      · rcases hmem with rfl | hm
        · exact List.mem_cons_self _ _
        · exact List.mem_cons_of_mem _ hm
      · intro r2 hr2
        rcases List.mem_cons.mp hr2 with rfl | hm
        · exact hle
        · exact hballs r2 hm
      · have hmax : maxMinWeightTier (r :: rs) = some b := by
          rw [show maxMinWeightTier (r :: rs) =
            some (rs.foldl (fun best x => if x.minWeight > best.minWeight then x else best) r)
            from rfl, hb]
        have hcw : calculateWeightBasedRate (r :: rs) w =
            match maxMinWeightTier (r :: rs) with | some t => t.rate | none => 0 := by
          unfold calculateWeightBasedRate
          rw [hfind]
        rw [hcw, hmax]

/-- Witness for C6: a matching tier exists for 3 kg, and the fallback
fires for 100 kg over the bounded tiers. -/
theorem c6_weight_tiers_witness :
    (∃ r ∈ tiers, weightTierMatches 3 r = true ∧ calculateWeightBasedRate tiers 3 = r.rate) ∧
    (∃ r ∈ tiersB, (∀ r2 ∈ tiersB, r2.minWeight ≤ r.minWeight) ∧
      calculateWeightBasedRate tiersB 100 = r.rate) := by
  refine ⟨c6_weight_tiers.2.1 tiers 3 ⟨⟨0, some 5, 5⟩, by norm_num [tiers], by rfl⟩,
    c6_weight_tiers.2.2 tiersB 100 (by simp [tiersB]) ?_⟩
  intro r hr
  simp only [tiersB, List.mem_cons, List.not_mem_nil, or_false] at hr
  rcases hr with rfl | rfl <;> rfl

lemma couponsDiscount_append (xs : List AppliedCoupon) (a : AppliedCoupon) :
    couponsDiscount (xs ++ [a]) = couponsDiscount xs + a.discountAmount := by
  simp [couponsDiscount]

lemma applyCoupons_ok (cps : List Coupon) : ∀ (c c' : CartState),
    c.subtotal = itemsSubtotal c.items →
    c.discountAmount = couponsDiscount c.appliedCoupons →
    applyCoupons c cps = .ok c' →
    c'.discountAmount =
      c.discountAmount + (cps.map (fun cp => couponDiscount cp c.subtotal)).sum ∧
    c'.subtotal = c.subtotal := by
  induction cps with
  | nil =>
    intro c c' _ _ h
    simp only [applyCoupons, Except.ok.injEq] at h
    subst h
    simp
  | cons cp cps ih =>
    intro c c' hsub hdisc h
    cases heq : applyCoupon c cp with
    | error e => simp [applyCoupons, heq] at h
    | ok c1 =>
      simp only [applyCoupons, heq] at h
      have hc1 := applyCoupon_ok_eq heq
      subst hc1
      have h1 : (applyCouponBody c cp).subtotal =
          itemsSubtotal (applyCouponBody c cp).items := (recalc_consistent _).2.1
      have h2 : (applyCouponBody c cp).discountAmount =
          couponsDiscount (applyCouponBody c cp).appliedCoupons := (recalc_consistent _).2.2
      obtain ⟨d1, s1⟩ := ih _ _ h1 h2 h
      have hsb : (applyCouponBody c cp).subtotal = c.subtotal := by
        rw [show (applyCouponBody c cp).subtotal = itemsSubtotal c.items from rfl, ← hsub]
      constructor
      · rw [d1, h2]
        rw [show (applyCouponBody c cp).appliedCoupons = c.appliedCoupons ++
          [⟨cp.id, cp.code, couponDiscount cp c.subtotal, cp.discountType⟩] from rfl]
        rw [couponsDiscount_append, ← hdisc, hsb]
        simp only [List.map_cons, List.sum_cons]
        ring
      · rw [s1, hsb]

/-- Claim C7: stacked coupons each compute against the pre-discount
subtotal (the stored subtotal is recomputed from the items only, never
reduced by discounts), and the cart discount is the plain sum of the
per-coupon amounts; concretely 100 dollars with a 10 percent coupon and a
5 dollar fixed coupon gives a discount of 15, strictly more than the
compounded 10.45. -/
theorem c7_stacked_discounts (c : CartState) (cps : List Coupon) (c' : CartState)
    (hsub : c.subtotal = itemsSubtotal c.items)
    (hdisc : c.discountAmount = couponsDiscount c.appliedCoupons)
    (h : applyCoupons c cps = .ok c') :
    (c'.discountAmount =
        c.discountAmount + (cps.map (fun cp => couponDiscount cp c.subtotal)).sum ∧
      c'.subtotal = c.subtotal) ∧
    applyCoupons cart100 [cpA, cpB] = .ok cart2AB ∧
    cart2AB.discountAmount = 15 ∧
    (1045 / 100 : ℚ) < 15 := by
  refine ⟨applyCoupons_ok cps c c' hsub hdisc h, by rfl, ?_, by norm_num⟩
  norm_num [cart2AB, cartWithA, applyCouponBody, recalculateTotals, couponsDiscount,
    couponDiscount, cart100, cpA, cpB, truthyNum]

/-- Witness for C7 at the concrete 100 dollar cart and two coupons. -/
theorem c7_stacked_discounts_witness :
    (cart2AB.discountAmount =
        cart100.discountAmount +
          ([cpA, cpB].map (fun cp => couponDiscount cp cart100.subtotal)).sum ∧
      cart2AB.subtotal = cart100.subtotal) ∧
    applyCoupons cart100 [cpA, cpB] = .ok cart2AB ∧
    cart2AB.discountAmount = 15 ∧
    (1045 / 100 : ℚ) < 15 :=
  c7_stacked_discounts cart100 [cpA, cpB] cart2AB (by norm_num [cart100, itemsSubtotal])
    (by norm_num [cart100, couponsDiscount]) (by rfl)

lemma orderPreSave_status (s : OrderStatus) (o : OrderState) :
    (orderPreSave s o).status = o.status := by
  unfold orderPreSave
  split
  · split <;> try rfl
    split <;> rfl
  · rfl

lemma noRegression_refl (s : OrderStatus) : noRegression s s = true := by
  cases s <;> rfl

lemma noRegression_trans : ∀ a b c : OrderStatus,
    noRegression a b = true → noRegression b c = true → noRegression a c = true := by
  decide

lemma cancel_ok_status {o o' : OrderState} (h : cancel o = .ok o') :
    o'.status = .cancelled ∧ canCancel o = true := by
  unfold cancel at h
  split at h
  · next hc =>
    simp only [Except.ok.injEq] at h
    subst h
    exact ⟨orderPreSave_status _ _, hc⟩
  · simp at h

lemma refund_ok_status {o o' : OrderState} {a : Option ℚ} (h : refund o a = .ok o') :
    canRefund o = true ∧ (o'.status = .refunded ∨ o'.status = o.status) := by
  unfold refund at h
  split at h
  · next hc =>
    refine ⟨hc, ?_⟩
    split at h
    all_goals simp only [ge_iff_le] at h
    all_goals split at h <;> simp only [Except.ok.injEq] at h <;> subst h
    all_goals rw [orderPreSave_status]
    all_goals simp
  · simp at h

lemma applySafe_noRegression (op : SafeOp) (o : OrderState) :
    noRegression o.status (applySafe op o).status = true := by
  cases op with
  | pay =>
    show noRegression o.status (markAsPaid o).status = true
    unfold markAsPaid
    rw [orderPreSave_status]
    by_cases h : o.status = .pending
    · simp only [h, if_pos rfl]
      rfl
    · have : ({ o with paymentStatus := PaymentStatus.paid } : OrderState).status =
        o.status := rfl
      rw [if_neg (by simpa [this] using h)]
      exact noRegression_refl _
  | cancelOrder =>
    cases hc : cancel o with
    | error e => simpa [applySafe, hc] using noRegression_refl o.status
    | ok o2 =>
      obtain ⟨hst, hcan⟩ := cancel_ok_status hc
      have hpc : o.status = .pending ∨ o.status = .confirmed := by
        simp only [canCancel, Bool.and_eq_true, Bool.or_eq_true, beq_iff_eq] at hcan
        exact hcan.1
      simp only [applySafe, hc]
      rw [hst]
      rcases hpc with h | h <;> rw [h] <;> rfl
  | refundOrder a =>
    cases hr : refund o a with
    | error e => simpa [applySafe, hr] using noRegression_refl o.status
    | ok o2 =>
      obtain ⟨hcan, hst⟩ := refund_ok_status hr
      have hnc : o.status ≠ .cancelled ∧ o.status ≠ .refunded := by
        simp only [canRefund, Bool.and_eq_true, Bool.not_eq_true', Bool.or_eq_false_iff,
          beq_eq_false_iff_ne, ne_eq] at hcan
        exact hcan.2
      simp only [applySafe, hr]
      rcases hst with h | h
      · rw [h]
        cases hX : o.status
        · rfl
        · rfl
        · rfl
        · rfl
        · rfl
        · exact absurd hX hnc.1
        · exact absurd hX hnc.2
      · rw [h]
        exact noRegression_refl _

/-- Claim C8 as amended: no sequence of markAsPaid, cancel and refund
ever moves the status backwards in the linear progression or out of the
terminal states; markAsShipped and markAsDelivered are unguarded, so
markAsShipped moves a delivered order back to shipped and pulls even a
cancelled order out of its terminal state. -/
theorem c8_guarded_one_directional :
    (∀ (ops : List SafeOp) (o : OrderState),
      noRegression o.status (runSafe ops o).status = true) ∧
    (markAsShipped ordDelivered).status = .shipped ∧
    statusRank (markAsShipped ordDelivered).status < statusRank ordDelivered.status ∧
    (markAsShipped ordCancelled).status = .shipped := by
  refine ⟨?_, rfl, by decide, rfl⟩
  intro ops
  induction ops with
  | nil => intro o; exact noRegression_refl o.status
  | cons op ops ih =>
    intro o
    exact noRegression_trans _ _ _ (applySafe_noRegression op o) (ih (applySafe op o))

/-- Counterexample to claim C8 as stated: driving a pending order to
delivered through the transition methods and then calling markAsShipped
again moves the status back from delivered to shipped, an earlier status
in the progression. -/
theorem c8_counterexample :
    (markAsDelivered (markAsShipped (markAsPaid ordPending))).status = .delivered ∧
    (markAsShipped (markAsDelivered (markAsShipped (markAsPaid ordPending)))).status = .shipped ∧
    statusRank OrderStatus.shipped < statusRank OrderStatus.delivered :=
  ⟨rfl, rfl, by decide⟩


end Ecom
